import Mathlib

/-
Shallow embedding of the FLAC Integrity Checker (src/fic.py, v1.4) and of the
recompression progress tracker (src/recompress.py).

External effects (the filesystem and the two spawned tools `flac` and
`metaflac`) are modelled by explicit behaviour oracles: `FileInfo` records
what the filesystem answers to the precheck probes of `is_file_accessible`,
and `ProcBehavior` records how one spawned process behaves (a genuine exit
with an exit status and captured streams, a termination by a signal, a
timeout, a missing executable, or another subprocess-level error).  Python's
`Popen.returncode` is the exit status for an exited child — non-negative: a
reaped exit status is 0..255 on POSIX and an unsigned 32-bit value on
Windows — and is `-N` for a child terminated by POSIX signal N; both kinds
of child result are modelled, alongside the -1 sentinels `run_command`
itself fabricates.

`verify_flac` additionally returns the trace of externally visible events it
performs (tool invocations with the timeout budget passed to each, and
backoff sleeps), so that claims about "zero external invocations", retry
counts and timeout budgets are statements about the trace.
-/

namespace Reflac

/-- Container for verification results (`VerificationResult` NamedTuple):
status is one of "passed", "failed", "no_md5". -/
structure VerificationResult where
  file_path : String
  status : String
  error : Option String
  md5sum : Option String := none
deriving Repr, DecidableEq

/-- Behaviour of one spawned external process, as observed by `run_command`:
the child exits with status `rc` (non-negative), the child is terminated by
POSIX signal `sig` (Python reports `returncode = -sig`), the budget expires,
the executable is missing, or another OSError/SubprocessError occurs. -/
inductive ProcBehavior where
  | exits (rc : Nat) (stdout : String) (stderr : String)
  | signaled (sig : Nat) (stdout : String) (stderr : String)
  | timesOut
  | execMissing
  | subprocError (msg : String)
deriving Repr, DecidableEq

/-- Embedding of `run_command(cmd, timeout)`: returns
(returncode, stdout, stderr).  A completed child yields its
`Popen.returncode` — the exit status for an exited child, `-sig` for a
signal-terminated child — with its captured streams.  A timeout kills the
process and yields (-1, "", "Command timed out"); a missing executable
(FileNotFoundError) yields (-1, "", "Command not found: cmd[0]"); any other
OSError or SubprocessError yields (-1, "", "Subprocess error: ...").  The
timeout value does not influence the returned triple (the behaviour oracle
already encodes whether the budget expired); it is kept for signature
fidelity. -/
def run_command (cmd : List String) (timeout : ℚ) (beh : ProcBehavior) :
    Int × String × String :=
  match beh with
  | ProcBehavior.exits rc stdout stderr => ((rc : Int), stdout, stderr)
  | ProcBehavior.signaled sig stdout stderr => (-(sig : Int), stdout, stderr)
  | ProcBehavior.timesOut => (-1, "", "Command timed out")
  | ProcBehavior.execMissing => (-1, "", "Command not found: " ++ cmd.headD "")
  | ProcBehavior.subprocError msg => (-1, "", "Subprocess error: " ++ msg)

/-- Python whitespace for `str.strip()` (ASCII part: space, tab, newline,
carriage return, vertical tab, form feed). -/
def is_py_space (c : Char) : Bool :=
  (c == ' ') || (c == '\t') || (c == '\n') || (c == '\r') ||
    (c == '\x0b') || (c == '\x0c')

/-- Python `str.strip()` on the character list: drop whitespace from both
ends. -/
def strip_chars (l : List Char) : List Char :=
  ((l.dropWhile is_py_space).reverse.dropWhile is_py_space).reverse

/-- Python `str.strip()`. -/
def py_strip (s : String) : String := String.mk (strip_chars s.data)

/-- Split a character list at newline characters (the line separator the
external tools emit).  `splitlines()` additionally swallows one trailing
empty segment, but every consumer here filters out empty stripped lines, so
the two agree on all observable results. -/
def split_nl : List Char → List (List Char)
  | [] => [[]]
  | c :: cs =>
    match split_nl cs with
    | [] => [[]]
    | h :: t => if c = '\n' then [] :: h :: t else (c :: h) :: t

/-- `error.splitlines()` as strings. -/
def split_lines (s : String) : List String :=
  (split_nl s.data).map String.mk

/-- Python `line.startswith(p)`. -/
def starts_with (line p : String) : Bool :=
  p.data.isPrefixOf line.data

/-- `'\n'.join(lines)`. -/
def join_nl : List String → String
  | [] => ""
  | [s] => s
  | s :: rest => s ++ "\n" ++ join_nl rest

/-- The boilerplate prefixes stripped by `clean_flac_error`. -/
def ignore_prefixes : List String :=
  ["flac", "Copyright", "welcome to redistribute",
   "This program is free software", "For more details"]

/-- Embedding of `clean_flac_error(error)`: empty/whitespace-only input maps
to ""; otherwise each line is stripped and lines that are empty or start with
a known boilerplate prefix are dropped, the rest re-joined with newlines. -/
def clean_flac_error (error : String) : String :=
  if py_strip error = "" then ""
  else
    join_nl
      (((split_lines error).map py_strip).filter
        (fun line =>
          (line != "") && !(ignore_prefixes.any (fun p => starts_with line p))))

/-- The error message verify_flac attaches on a structural-check failure:
`clean_flac_error(stderr) or "Unknown FLAC error"` (Python `or` replaces an
empty cleaned string). -/
def flac_error_msg (stderr : String) : String :=
  if clean_flac_error stderr = "" then "Unknown FLAC error"
  else clean_flac_error stderr

/-- What the filesystem answers to each probe of `is_file_accessible`. -/
structure FileInfo where
  isFile : Bool
  isSymlink : Bool
  /-- `path.resolve(strict=True)` succeeds and denotes a regular file. -/
  resolvesToFile : Bool
  /-- `os.access(file_path, os.R_OK)` -/
  readable : Bool
  /-- opening and reading the first `FILE_READ_CHUNK` bytes succeeds -/
  readOk : Bool
  /-- `path.stat().st_size` -/
  size : Nat
deriving Repr, DecidableEq

/-- Embedding of `is_file_accessible(file_path)`: False unless the path is a
regular file, any symlink resolves to a regular file, the file is readable,
a first chunk can actually be read, and the size is positive.  Any OSError
raised inside is caught and also yields False. -/
def is_file_accessible (f : FileInfo) : Bool :=
  f.isFile && (!f.isSymlink || f.resolvesToFile) && f.readable && f.readOk
    && decide (0 < f.size)

/-- The 32-character all-zero sentinel `'0' * 32` compared against by
`verify_flac`. -/
def zero_md5 : String := "00000000000000000000000000000000"

/-- Externally visible events performed by `verify_flac`: tool invocations
(with the timeout budget passed to `run_command`) and backoff sleeps. -/
inductive Event where
  | call (cmd : List String) (timeout : ℚ)
  | sleep (duration : ℚ)
deriving Repr, DecidableEq

/-- Environment behaviour of one loop iteration (attempt) of `verify_flac`:
either an unexpected OSError/SubprocessError escapes into the per-attempt
`except` handler, or the attempt runs the pipeline against the given
filesystem answer and the two process behaviours. -/
inductive AttemptEnv where
  | raises (msg : String)
  | runs (info : FileInfo) (flac_beh : ProcBehavior) (metaflac_beh : ProcBehavior)
deriving Repr, DecidableEq

/-- The loop body of `verify_flac`, one constructor case per remaining
iteration of `for attempt in range(max_retries + 1)`.  `fuel` counts the
iterations left (`max_retries + 1 - attempt` at the top-level call); the
fuel-0 case is the fall-through `return VerificationResult(file_path,
'failed', last_error)` after the loop.  Returns the result together with the
trace of external events.  The `verbose` flag of the source only appends
traceback text to the system-error message and is modelled as off. -/
def verify_flac_aux (file_path : String) (env : Nat → AttemptEnv) (timeout : ℚ)
    (max_retries : Nat) : Nat → Nat → String → VerificationResult × List Event
  | _, 0, last_error =>
    (⟨file_path, "failed", some last_error, none⟩, [])
  | attempt, fuel + 1, last_error =>
    match env attempt with
    | AttemptEnv.raises msg =>
      if attempt = max_retries then
        (⟨file_path, "failed", some ("System error: " ++ msg), none⟩, [])
      else
        let rest := verify_flac_aux file_path env timeout max_retries
          (attempt + 1) fuel msg
        (rest.1, Event.sleep ((1 : ℚ) / 2 * ((attempt : ℚ) + 1)) :: rest.2)
    | AttemptEnv.runs info flac_beh metaflac_beh =>
      if is_file_accessible info then
        let r1 := run_command ["flac", "-t", file_path] timeout flac_beh
        let ev1 := Event.call ["flac", "-t", file_path] timeout
        if r1.1 ≠ 0 then
          (⟨file_path, "failed", some (flac_error_msg r1.2.2), none⟩, [ev1])
        else
          let r2 := run_command ["metaflac", "--show-md5sum", file_path]
            (timeout / 3) metaflac_beh
          let ev2 := Event.call ["metaflac", "--show-md5sum", file_path]
            (timeout / 3)
          if r2.1 ≠ 0 then
            if attempt = max_retries then
              (⟨file_path, "failed", some "MD5 check failed", none⟩, [ev1, ev2])
            else
              let rest := verify_flac_aux file_path env timeout max_retries
                (attempt + 1) fuel last_error
              (rest.1,
               ev1 :: ev2 ::
                 Event.sleep ((1 : ℚ) / 2 * ((attempt : ℚ) + 1)) :: rest.2)
          else
            let md5 := py_strip r2.2.1
            if md5 = "" ∨ md5 = zero_md5 then
              (⟨file_path, "no_md5", none, none⟩, [ev1, ev2])
            else
              (⟨file_path, "passed", none, some md5⟩, [ev1, ev2])
      else
        (⟨file_path, "failed", some "File inaccessible or unreadable", none⟩,
         [])

/-- Embedding of `verify_flac(file_path, timeout, max_retries, verbose)`:
runs the retry loop from attempt 0 with `max_retries + 1` iterations and
`last_error = ""`. -/
def verify_flac (file_path : String) (env : Nat → AttemptEnv) (timeout : ℚ)
    (max_retries : Nat) : VerificationResult × List Event :=
  verify_flac_aux file_path env timeout max_retries 0 (max_retries + 1) ""

/-- Embedding of `get_optimal_threads(max_threads)`:
`min(max_threads, max(1, int(cpu_count * 0.75)))`.  For every machine
core count, `cpu_count * 0.75` is exact in binary floating point and `int`
truncates, so `int(cpu_count * 0.75) = 3 * cpu_count / 4` in natural-number
division. -/
def get_optimal_threads (max_threads : Nat) (cpu_count : Nat) : Nat :=
  min max_threads (max 1 (3 * cpu_count / 4))

/-- What dequeuing one completed future yields in `main`'s result loop:
either the `VerificationResult` of `future.result()`, or an
OSError/SubprocessError raised while retrieving it. -/
inductive TaskEvent where
  | ok (r : VerificationResult)
  | procError (msg : String)
deriving Repr, DecidableEq

/-- The `results` counter dictionary of `main`. -/
structure RunTotals where
  passed : Nat
  failed : Nat
  no_md5 : Nat
deriving Repr, DecidableEq

/-- The aggregation state of `main`'s result loop: the counters plus the
ordered lists `failed_files` and `no_md5_files`. -/
structure MainState where
  results : RunTotals
  failed_files : List (String × String)
  no_md5_files : List String
deriving Repr, DecidableEq

/-- `results = {'passed': 0, 'failed': 0, 'no_md5': 0}` with empty lists. -/
def initial_state : MainState := ⟨⟨0, 0, 0⟩, [], []⟩

/-- One iteration of `for future in concurrent.futures.as_completed(...)`:
classify the task's event for the submitted file path.  A raised
OSError/SubprocessError is the catch-all branch that counts the file as
failed with a "Processing error" reason; any status other than 'passed' and
'failed' lands in the `else` (no_md5) branch, as in the source. -/
def process_task (s : MainState) (task : String × TaskEvent) : MainState :=
  match task.2 with
  | TaskEvent.ok r =>
    if r.status = "passed" then
      { s with results := { s.results with passed := s.results.passed + 1 } }
    else if r.status = "failed" then
      { s with
        results := { s.results with failed := s.results.failed + 1 }
        failed_files := s.failed_files ++ [(r.file_path, r.error.getD "")] }
    else
      { s with
        results := { s.results with no_md5 := s.results.no_md5 + 1 }
        no_md5_files := s.no_md5_files ++ [r.file_path] }
  | TaskEvent.procError msg =>
    { s with
      results := { s.results with failed := s.results.failed + 1 }
      failed_files := s.failed_files ++ [(task.1, "Processing error: " ++ msg)] }

/-- The whole completion loop of `main`: one event per submitted file. -/
def process_all (tasks : List (String × TaskEvent)) : MainState :=
  tasks.foldl process_task initial_state

/-- Embedding of `sys.exit(1 if results['failed'] else 0)`. -/
def exit_code (results : RunTotals) : Nat :=
  if results.failed ≠ 0 then 1 else 0

/-- Whether `main`'s loop classifies this task into the failed branch. -/
def classified_failed : String × TaskEvent → Bool
  | (_, TaskEvent.ok r) => (r.status != "passed") && (r.status == "failed")
  | (_, TaskEvent.procError _) => true

/-- The `ProgressTracker` of src/recompress.py (total plus the mutable
counters and error list; the lock serialises `update` calls, so a run is a
sequence of updates). -/
structure ProgressTracker where
  total : Nat
  progress : Nat
  success : Nat
  failed : Nat
  errors : List String
deriving Repr, DecidableEq

/-- `ProgressTracker.__init__(total)`. -/
def ProgressTracker.init (total : Nat) : ProgressTracker :=
  ⟨total, 0, 0, 0, []⟩

/-- `ProgressTracker.update(success, error_info)`: increments `progress`,
then one of `success`/`failed`; on a failed update `error_info` is appended
only when truthy (neither None nor the empty string). -/
def ProgressTracker.update (s : ProgressTracker) (success : Bool)
    (error_info : Option String) : ProgressTracker :=
  if success then
    { s with progress := s.progress + 1, success := s.success + 1 }
  else
    { s with
      progress := s.progress + 1
      failed := s.failed + 1
      errors :=
        (match error_info with
         | some m => if m = "" then s.errors else s.errors ++ [m]
         | none => s.errors) }

/-- A run of the tracker: a sequence of `update` calls applied in order. -/
def apply_updates (total : Nat) (us : List (Bool × Option String)) :
    ProgressTracker :=
  us.foldl (fun s u => s.update u.1 u.2) (ProgressTracker.init total)

/-- The timeout budgets of the external invocations in a trace, in call
order. -/
def call_timeouts (events : List Event) : List ℚ :=
  events.filterMap (fun e =>
    match e with
    | Event.call _ t => some t
    | Event.sleep _ => none)

/-- The externally visible events of one attempt in a run whose checksum
check keeps failing: both tool calls, followed by the backoff sleep of
`0.5 * (attempt + 1)` seconds on every attempt but the last. -/
def attempt_events (fp : String) (t : ℚ) (mr : Nat) (a : Nat) : List Event :=
  [Event.call ["flac", "-t", fp] t,
   Event.call ["metaflac", "--show-md5sum", fp] (t / 3)] ++
  (if a = mr then [] else [Event.sleep ((1 : ℚ) / 2 * ((a : ℚ) + 1))])

/-- The full trace of a run whose checksum check fails on all
`max_retries + 1` attempts. -/
def checksum_retry_trace (fp : String) (t : ℚ) (mr : Nat) : List Event :=
  (List.range (mr + 1)).flatMap (attempt_events fp t mr)

/-- A perfectly accessible regular file. -/
def good_info : FileInfo := ⟨true, false, false, true, true, 1024⟩

/-- A path that no longer denotes a regular file. -/
def missing_info : FileInfo := ⟨false, false, false, true, true, 4⟩

/-- An environment in which every attempt finds an accessible file, a clean
structural check, and a metaflac that prints a genuine checksum. -/
def benign_env : Nat → AttemptEnv := fun _ =>
  AttemptEnv.runs good_info (ProcBehavior.exits 0 "" "")
    (ProcBehavior.exits 0 "0123456789abcdef0123456789abcdef" "")

/-- An environment in which every attempt finds a metaflac that prints only
the all-zero sentinel checksum. -/
def sentinel_env : Nat → AttemptEnv := fun _ =>
  AttemptEnv.runs good_info (ProcBehavior.exits 0 "" "")
    (ProcBehavior.exits 0 "00000000000000000000000000000000\n" "")

/-- An environment in which the structural check always fails. -/
def struct_fail_env : Nat → AttemptEnv := fun _ =>
  AttemptEnv.runs good_info
    (ProcBehavior.exits 1 "" "flac 1.4.2\na.flac: ERROR while decoding\n")
    (ProcBehavior.exits 0 "0123456789abcdef0123456789abcdef" "")

/-- An environment in which the checksum read always fails. -/
def md5_fail_env : Nat → AttemptEnv := fun _ =>
  AttemptEnv.runs good_info (ProcBehavior.exits 0 "" "")
    (ProcBehavior.exits 1 "" "metaflac: read error")

/-- An environment in which the file is never accessible. -/
def missing_env : Nat → AttemptEnv := fun _ =>
  AttemptEnv.runs missing_info (ProcBehavior.exits 0 "" "")
    (ProcBehavior.exits 0 "0123456789abcdef0123456789abcdef" "")

lemma tracker_update_progress (s : ProgressTracker) (ok : Bool)
    (e : Option String) : (s.update ok e).progress = s.progress + 1 := by
  cases ok <;> simp [ProgressTracker.update]

lemma tracker_update_sum (s : ProgressTracker) (ok : Bool) (e : Option String) :
    (s.update ok e).success + (s.update ok e).failed =
      s.success + s.failed + 1 := by
  cases ok <;> simp [ProgressTracker.update] <;> omega

lemma tracker_update_errors_le (s : ProgressTracker) (ok : Bool)
    (e : Option String) :
    (s.update ok e).errors.length + s.failed ≤
      s.errors.length + (s.update ok e).failed := by
  cases ok
  · cases e with
    | none => simp [ProgressTracker.update]
    | some m =>
      by_cases hm : m = "" <;> simp [ProgressTracker.update, hm] <;> omega
  · simp [ProgressTracker.update]

lemma tracker_foldl_progress (us : List (Bool × Option String)) :
    ∀ s : ProgressTracker,
      (us.foldl (fun s u => s.update u.1 u.2) s).progress =
        s.progress + us.length := by
  induction us with
  | nil => intro s; simp
  | cons u us ih =>
    intro s
    simp only [List.foldl_cons, List.length_cons]
    rw [ih, tracker_update_progress]
    omega

lemma tracker_foldl_sum (us : List (Bool × Option String)) :
    ∀ s : ProgressTracker,
      (us.foldl (fun s u => s.update u.1 u.2) s).success +
        (us.foldl (fun s u => s.update u.1 u.2) s).failed =
        s.success + s.failed + us.length := by
  induction us with
  | nil => intro s; simp
  | cons u us ih =>
    intro s
    simp only [List.foldl_cons, List.length_cons]
    rw [ih]
    have := tracker_update_sum s u.1 u.2
    omega

lemma tracker_foldl_errors (us : List (Bool × Option String)) :
    ∀ s : ProgressTracker,
      (us.foldl (fun s u => s.update u.1 u.2) s).errors.length + s.failed ≤
        s.errors.length + (us.foldl (fun s u => s.update u.1 u.2) s).failed := by
  induction us with
  | nil => intro s; simp
  | cons u us ih =>
    intro s
    simp only [List.foldl_cons]
    have h1 := tracker_update_errors_le s u.1 u.2
    have h2 := ih (s.update u.1 u.2)
    omega

/-- Claim C10: every `ProgressTracker.update` increments `progress` by
exactly one, preserves `progress == success + failed`, and appends to
`errors` only on a failed update that carries non-empty error information;
consequently after any sequence of N updates the totals satisfy
`success + failed == N` (and `progress == N`) and `len(errors) ≤ failed`. -/
theorem C10_progress_tracker_invariants :
    (∀ (s : ProgressTracker) (ok : Bool) (e : Option String),
      (s.update ok e).progress = s.progress + 1)
    ∧ (∀ (s : ProgressTracker) (ok : Bool) (e : Option String),
      s.progress = s.success + s.failed →
      (s.update ok e).progress = (s.update ok e).success + (s.update ok e).failed)
    ∧ (∀ (s : ProgressTracker) (e : Option String),
      (s.update true e).errors = s.errors ∧
      (s.update false none).errors = s.errors ∧
      (s.update false (some "")).errors = s.errors ∧
      ∀ m : String, m ≠ "" → (s.update false (some m)).errors = s.errors ++ [m])
    ∧ (∀ (total : Nat) (us : List (Bool × Option String)),
      (apply_updates total us).success + (apply_updates total us).failed =
        us.length ∧
      (apply_updates total us).progress = us.length ∧
      (apply_updates total us).errors.length ≤ (apply_updates total us).failed) := by
  refine ⟨fun s ok e => tracker_update_progress s ok e, ?_, ?_, ?_⟩
  · intro s ok e hinv
    have h1 := tracker_update_progress s ok e
    have h2 := tracker_update_sum s ok e
    omega
  · intro s e
    refine ⟨by simp [ProgressTracker.update], by simp [ProgressTracker.update],
      by simp [ProgressTracker.update], ?_⟩
    intro m hm
    simp [ProgressTracker.update, hm]
  · intro total us
    have h1 := tracker_foldl_sum us (ProgressTracker.init total)
    have h2 := tracker_foldl_progress us (ProgressTracker.init total)
    have h3 := tracker_foldl_errors us (ProgressTracker.init total)
    simp only [ProgressTracker.init, apply_updates, List.length_nil]
      at h1 h2 h3 ⊢
    omega

/-- Witness for C10 at a concrete update sequence: one success, one failure
with an error, one failure without error information. -/
theorem C10_witness :
    (apply_updates 3 [(true, none), (false, some "boom"), (false, none)]).success +
      (apply_updates 3 [(true, none), (false, some "boom"), (false, none)]).failed = 3 ∧
    ((⟨3, 2, 1, 1, ["boom"]⟩ : ProgressTracker).update false (some "x")).progress =
      ((⟨3, 2, 1, 1, ["boom"]⟩ : ProgressTracker).update false (some "x")).success +
      ((⟨3, 2, 1, 1, ["boom"]⟩ : ProgressTracker).update false (some "x")).failed ∧
    ((⟨3, 2, 1, 1, ["boom"]⟩ : ProgressTracker).update false (some "x")).errors =
      ["boom"] ++ ["x"] :=
  ⟨(C10_progress_tracker_invariants.2.2.2 3
      [(true, none), (false, some "boom"), (false, none)]).1,
   C10_progress_tracker_invariants.2.1 _ false (some "x") (by decide),
   (C10_progress_tracker_invariants.2.2.1 _ (some "x")).2.2.2 "x" (by decide)⟩

/-- Counterexample for C6 as stated: `run_command` encodes the missing
executable in-band as (-1, "", "Command not found: cmd[0]"), and a child
terminated by POSIX signal 1 (so `Popen.returncode = -1`, a nonzero process
result) that wrote that same text to stderr and nothing to stdout produces
the identical triple — the caller cannot distinguish the two, so NotFound is
not distinguished from every nonzero process result. -/
theorem C6_counterexample :
    run_command ["flac", "-t", "a.flac"] 30 ProcBehavior.execMissing =
      run_command ["flac", "-t", "a.flac"] 30
        (ProcBehavior.signaled 1 "" "Command not found: flac") ∧
    (run_command ["flac", "-t", "a.flac"] 30
      (ProcBehavior.signaled 1 "" "Command not found: flac")).1 ≠ 0 := by
  exact ⟨by decide, by decide⟩

/-- Claim C6, amended: a missing executable yields
(-1, "", "Command not found: cmd[0]"), a result distinguished from every
genuinely exited nonzero process (reaped exit statuses are non-negative, so
they never collide with the -1 sentinel) and from a timeout (different
captured stderr), and the returned message names the missing command so the
caller can produce a missing-tool specific message; it is not distinguished
from a signal-terminated child that happens to emit the same streams. -/
theorem C6_missing_tool_distinguished :
    ∀ (cmd : List String) (timeout : ℚ) (rc : Nat) (stdout stderr : String),
      rc ≠ 0 →
      run_command cmd timeout ProcBehavior.execMissing ≠
        run_command cmd timeout (ProcBehavior.exits rc stdout stderr) ∧
      run_command cmd timeout ProcBehavior.execMissing ≠
        run_command cmd timeout ProcBehavior.timesOut ∧
      (run_command cmd timeout ProcBehavior.execMissing).2.2 =
        "Command not found: " ++ cmd.headD "" := by
  intro cmd timeout rc stdout stderr hrc
  refine ⟨?_, ?_, rfl⟩
  · intro h
    simp only [run_command, Prod.mk.injEq] at h
    omega
  · intro h
    simp only [run_command, Prod.mk.injEq] at h
    have hl := congrArg String.length h.2.2
    rw [String.length_append] at hl
    have h19 : ("Command not found: " : String).length = 19 := rfl
    have h17 : ("Command timed out" : String).length = 17 := rfl
    omega

/-- Witness for the amended C6: the missing-tool result for `flac` differs
from an exit-1 result and from the timeout result. -/
theorem C6_witness :
    run_command ["flac", "-t", "a.flac"] 30 ProcBehavior.execMissing ≠
      run_command ["flac", "-t", "a.flac"] 30 (ProcBehavior.exits 1 "" "bad") ∧
    run_command ["flac", "-t", "a.flac"] 30 ProcBehavior.execMissing ≠
      run_command ["flac", "-t", "a.flac"] 30 ProcBehavior.timesOut ∧
    (run_command ["flac", "-t", "a.flac"] 30 ProcBehavior.execMissing).2.2 =
      "Command not found: " ++ ["flac", "-t", "a.flac"].headD "" :=
  C6_missing_tool_distinguished ["flac", "-t", "a.flac"] 30 1 "" "bad"
    (by decide)

lemma process_task_failed_count (s : MainState) (t : String × TaskEvent) :
    (process_task s t).results.failed =
      s.results.failed + (if classified_failed t then 1 else 0) := by
  rcases t with ⟨fp, e⟩
  cases e with
  | ok r =>
    simp only [process_task, classified_failed]
    by_cases h1 : r.status = "passed"
    · simp [h1]
    · by_cases h2 : r.status = "failed"
      · simp [h1, h2]
      · simp [h1, h2]
  | procError m => simp [process_task, classified_failed]

lemma process_all_failed_count (tasks : List (String × TaskEvent)) :
    ∀ s : MainState,
      (tasks.foldl process_task s).results.failed =
        s.results.failed + tasks.countP classified_failed := by
  induction tasks with
  | nil => intro s; simp
  | cons t ts ih =>
    intro s
    simp only [List.foldl_cons, List.countP_cons]
    rw [ih]
    have := process_task_failed_count s t
    by_cases h : classified_failed t = true
    · simp [h] at this ⊢
      omega
    · simp [h] at this ⊢
      omega

/-- Claim C7: the process exit code is non-zero iff at least one task was
classified as failed; in terms of the final counters, `main` exits 1 when
the failed count is positive and 0 when it is zero. -/
theorem C7_exit_code_iff_failed :
    (∀ tasks : List (String × TaskEvent),
      exit_code (process_all tasks).results ≠ 0 ↔
        ∃ t ∈ tasks, classified_failed t = true)
    ∧ (∀ r : RunTotals,
      (0 < r.failed → exit_code r = 1) ∧ (r.failed = 0 → exit_code r = 0)) := by
  constructor
  · intro tasks
    have hfc : (process_all tasks).results.failed =
        tasks.countP classified_failed := by
      have h := process_all_failed_count tasks initial_state
      have h0 : initial_state.results.failed = 0 := rfl
      rw [h0, Nat.zero_add] at h
      exact h
    rw [show (∃ t ∈ tasks, classified_failed t = true) ↔
        0 < tasks.countP classified_failed from List.countP_pos_iff.symm]
    rw [exit_code, hfc]
    by_cases hc : tasks.countP classified_failed = 0
    · simp [hc]
    · rw [if_pos hc]
      exact ⟨fun _ => Nat.pos_of_ne_zero hc, fun _ => one_ne_zero⟩
  · intro r
    constructor
    · intro h
      have hne : r.failed ≠ 0 := by omega
      simp [exit_code, hne]
    · intro h
      simp [exit_code, h]

/-- Witness for C7: one failed task makes the exit code non-zero, and a run
with three failures exits 1. -/
theorem C7_witness :
    exit_code (process_all
      [("b.flac", TaskEvent.ok ⟨"b.flac", "failed", some "bad header", none⟩)]).results ≠ 0 ∧
    exit_code ⟨0, 3, 0⟩ = 1 :=
  ⟨(C7_exit_code_iff_failed.1
      [("b.flac", TaskEvent.ok ⟨"b.flac", "failed", some "bad header", none⟩)]).mpr
      ⟨("b.flac", TaskEvent.ok ⟨"b.flac", "failed", some "bad header", none⟩),
        by simp, by decide⟩,
   (C7_exit_code_iff_failed.2 ⟨0, 3, 0⟩).1 (by decide)⟩

/-- Claim C8: for every CPU count ≥ 1 and configured maximum ≥ 1 the worker
pool size `min(max_threads, max(1, int(cpu_count * 0.75)))` is the 0.75-scaled
CPU count clamped to the interval [1, max_threads], and always lies in it. -/
theorem C8_thread_pool_clamped :
    ∀ max_threads cpu_count : Nat,
      1 ≤ max_threads → 1 ≤ cpu_count →
      1 ≤ get_optimal_threads max_threads cpu_count ∧
      get_optimal_threads max_threads cpu_count ≤ max_threads ∧
      get_optimal_threads max_threads cpu_count =
        max 1 (min max_threads (3 * cpu_count / 4)) := by
  intro mt cpu hmt hcpu
  unfold get_optimal_threads
  refine ⟨?_, ?_, ?_⟩ <;> omega

/-- Witness for C8: with 8 CPUs and a ceiling of 32 threads the pool gets
`int(8 * 0.75) = 6` workers, inside [1, 32]. -/
theorem C8_witness :
    1 ≤ get_optimal_threads 32 8 ∧ get_optimal_threads 32 8 ≤ 32 ∧
      get_optimal_threads 32 8 = max 1 (min 32 (3 * 8 / 4)) :=
  C8_thread_pool_clamped 32 8 (by decide) (by decide)

lemma process_task_total (s : MainState) (t : String × TaskEvent) :
    (process_task s t).results.passed + (process_task s t).results.failed +
      (process_task s t).results.no_md5 =
      s.results.passed + s.results.failed + s.results.no_md5 + 1 := by
  rcases t with ⟨fp, e⟩
  cases e with
  | ok r =>
    simp only [process_task]
    by_cases h1 : r.status = "passed"
    · simp [h1]; omega
    · by_cases h2 : r.status = "failed" <;> simp [h1, h2] <;> omega
  | procError m => simp [process_task]; omega

lemma process_all_total (tasks : List (String × TaskEvent)) :
    ∀ s : MainState,
      (tasks.foldl process_task s).results.passed +
        (tasks.foldl process_task s).results.failed +
        (tasks.foldl process_task s).results.no_md5 =
        s.results.passed + s.results.failed + s.results.no_md5 + tasks.length := by
  induction tasks with
  | nil => intro s; simp
  | cons t ts ih =>
    intro s
    simp only [List.foldl_cons, List.length_cons]
    rw [ih]
    have := process_task_total s t
    omega

/-- Claim C1: the completion loop produces exactly one counted outcome per
submitted file, so after all tasks complete
`passed + failed + no_md5 = N`; an OSError/SubprocessError escaping
`future.result()` is caught by the loop's handler and classified as a
terminal failed outcome. -/
theorem C1_one_outcome_per_file :
    (∀ tasks : List (String × TaskEvent),
      (process_all tasks).results.passed + (process_all tasks).results.failed +
        (process_all tasks).results.no_md5 = tasks.length)
    ∧ (∀ (s : MainState) (fp msg : String),
      (process_task s (fp, TaskEvent.procError msg)).results.failed =
        s.results.failed + 1 ∧
      (process_task s (fp, TaskEvent.procError msg)).failed_files =
        s.failed_files ++ [(fp, "Processing error: " ++ msg)]) := by
  constructor
  · intro tasks
    have h := process_all_total tasks initial_state
    have h0 : initial_state.results.passed = 0 ∧ initial_state.results.failed = 0 ∧
        initial_state.results.no_md5 = 0 := ⟨rfl, rfl, rfl⟩
    simp only [process_all]
    omega
  · intro s fp msg
    exact ⟨rfl, rfl⟩

/-- Claim C5: a file that fails the precheck — because it is missing,
unreadable, empty, or a broken symlink — yields
`Failed("File inaccessible or unreadable")` with an empty event trace:
zero external tool invocations and zero backoff sleeps (no retries). -/
theorem C5_precheck_failure_no_external_calls :
    (∀ (fp : String) (env : Nat → AttemptEnv) (t : ℚ) (mr : Nat)
      (info : FileInfo) (fb mb : ProcBehavior),
      env 0 = AttemptEnv.runs info fb mb →
      is_file_accessible info = false →
      verify_flac fp env t mr =
        (⟨fp, "failed", some "File inaccessible or unreadable", none⟩, []))
    ∧ (∀ info : FileInfo, info.isFile = false → is_file_accessible info = false)
    ∧ (∀ info : FileInfo, info.readable = false → is_file_accessible info = false)
    ∧ (∀ info : FileInfo, info.size = 0 → is_file_accessible info = false)
    ∧ (∀ info : FileInfo, info.isSymlink = true → info.resolvesToFile = false →
      is_file_accessible info = false) := by
  refine ⟨?_, ?_, ?_, ?_, ?_⟩
  · intro fp env t mr info fb mb henv hacc
    rw [verify_flac, verify_flac_aux, henv]
    simp [hacc]
  · intro info h; simp [is_file_accessible, h]
  · intro info h; simp [is_file_accessible, h]
  · intro info h; simp [is_file_accessible, h]
  · intro info h1 h2; simp [is_file_accessible, h1, h2]

/-- Witness for C5: a path that no longer denotes a regular file is refused
by the precheck and produces the terminal failed outcome with no external
calls. -/
theorem C5_witness :
    verify_flac "gone.flac" missing_env 30 2 =
      (⟨"gone.flac", "failed", some "File inaccessible or unreadable", none⟩,
       []) ∧
    is_file_accessible missing_info = false :=
  ⟨C5_precheck_failure_no_external_calls.1 "gone.flac" missing_env 30 2
      missing_info (ProcBehavior.exits 0 "" "")
      (ProcBehavior.exits 0 "0123456789abcdef0123456789abcdef" "") rfl
      (C5_precheck_failure_no_external_calls.2.1 missing_info rfl),
   C5_precheck_failure_no_external_calls.2.1 missing_info rfl⟩

lemma verify_flac_aux_shape (fp : String) (env : Nat → AttemptEnv) (t : ℚ)
    (mr : Nat) :
    ∀ (fuel attempt : Nat) (le : String),
      (∃ e, (verify_flac_aux fp env t mr attempt fuel le).1 =
        ⟨fp, "failed", some e, none⟩) ∨
      (verify_flac_aux fp env t mr attempt fuel le).1 =
        ⟨fp, "no_md5", none, none⟩ ∨
      (∃ m, (verify_flac_aux fp env t mr attempt fuel le).1 =
        ⟨fp, "passed", none, some m⟩) := by
  intro fuel
  induction fuel with
  | zero => intro attempt le; exact Or.inl ⟨le, rfl⟩
  | succ fuel ih =>
    intro attempt le
    rw [verify_flac_aux]
    cases henv : env attempt with
    | raises msg =>
      by_cases hm : attempt = mr
      · simp only [if_pos hm]
        exact Or.inl ⟨_, rfl⟩
      · simp only [if_neg hm]
        exact ih (attempt + 1) msg
    | runs info fb mb =>
      by_cases hacc : is_file_accessible info = true
      · simp only [hacc, if_true]
        by_cases h1 : (run_command ["flac", "-t", fp] t fb).1 ≠ 0
        · simp only [if_pos h1]
          exact Or.inl ⟨_, rfl⟩
        · simp only [if_neg h1]
          by_cases h2 :
              (run_command ["metaflac", "--show-md5sum", fp] (t / 3) mb).1 ≠ 0
          · simp only [if_pos h2]
            by_cases hm : attempt = mr
            · simp only [if_pos hm]
              exact Or.inl ⟨_, rfl⟩
            · simp only [if_neg hm]
              exact ih (attempt + 1) le
          · simp only [if_neg h2]
            by_cases h3 :
                py_strip (run_command ["metaflac", "--show-md5sum", fp]
                  (t / 3) mb).2.1 = "" ∨
                py_strip (run_command ["metaflac", "--show-md5sum", fp]
                  (t / 3) mb).2.1 = zero_md5
            · simp only [if_pos h3]
              exact Or.inr (Or.inl (by simp))
            · simp only [if_neg h3]
              exact Or.inr (Or.inr ⟨_, rfl⟩)
      · simp only [hacc]
        simp only [Bool.false_eq_true, if_false]
        exact Or.inl ⟨_, rfl⟩

/-- Claim C9: every `VerificationResult` produced by `verify_flac` has a
non-None `md5sum` only with status 'passed', a None `error` whenever the
status is 'passed' or 'no_md5', and a non-None `error` only with status
'failed'. -/
theorem C9_result_field_invariant :
    ∀ (fp : String) (env : Nat → AttemptEnv) (t : ℚ) (mr : Nat),
      ((verify_flac fp env t mr).1.md5sum ≠ none →
        (verify_flac fp env t mr).1.status = "passed")
      ∧ ((verify_flac fp env t mr).1.status = "passed" ∨
          (verify_flac fp env t mr).1.status = "no_md5" →
        (verify_flac fp env t mr).1.error = none)
      ∧ ((verify_flac fp env t mr).1.error ≠ none →
        (verify_flac fp env t mr).1.status = "failed") := by
  intro fp env t mr
  rcases verify_flac_aux_shape fp env t mr (mr + 1) 0 "" with
    ⟨e, h⟩ | h | ⟨m, h⟩ <;>
    rw [verify_flac] <;> rw [h] <;> simp

/-- Witness for C9 on a run that passes: the checksum is present exactly
because the status is 'passed'. -/
theorem C9_witness :
    (verify_flac "a.flac" benign_env 30 2).1.status = "passed" ∧
    (verify_flac "a.flac" benign_env 30 2).1.error = none :=
  ⟨(C9_result_field_invariant "a.flac" benign_env 30 2).1 (by decide),
   (C9_result_field_invariant "a.flac" benign_env 30 2).2.1
     (Or.inl ((C9_result_field_invariant "a.flac" benign_env 30 2).1
       (by decide)))⟩

/-- Claim C3: when the structural check succeeds and the metadata read
succeeds, the whitespace-stripped checksum read from standard output
classifies the file: empty or equal to the 32-zero sentinel means `no_md5`
(and never `passed`); anything else means `passed` carrying exactly that
checksum value. -/
theorem C3_sentinel_checksum_classification :
    ∀ (fp : String) (env : Nat → AttemptEnv) (t : ℚ) (mr : Nat)
      (info : FileInfo) (fb mb : ProcBehavior) (md5 : String),
      env 0 = AttemptEnv.runs info fb mb →
      is_file_accessible info = true →
      (run_command ["flac", "-t", fp] t fb).1 = 0 →
      (run_command ["metaflac", "--show-md5sum", fp] (t / 3) mb).1 = 0 →
      md5 = py_strip (run_command ["metaflac", "--show-md5sum", fp]
        (t / 3) mb).2.1 →
      ((md5 = "" ∨ md5 = zero_md5 →
        (verify_flac fp env t mr).1 = ⟨fp, "no_md5", none, none⟩ ∧
        (verify_flac fp env t mr).1.status ≠ "passed")
      ∧ (¬ (md5 = "" ∨ md5 = zero_md5) →
        (verify_flac fp env t mr).1 = ⟨fp, "passed", none, some md5⟩)) := by
  intro fp env t mr info fb mb md5 henv hacc h1 h2 hmd5
  rw [verify_flac, verify_flac_aux, henv]
  have h1n : ¬ ((run_command ["flac", "-t", fp] t fb).1 ≠ 0) := by
    simpa using h1
  have h2n : ¬ ((run_command ["metaflac", "--show-md5sum", fp]
      (t / 3) mb).1 ≠ 0) := by
    simpa using h2
  simp only [hacc, if_true, if_neg h1n, if_neg h2n, ← hmd5]
  constructor
  · intro hc
    simp only [if_pos hc]
    exact ⟨by simp, by simp⟩
  · intro hc
    simp only [if_neg hc]

/-- Witness for C3: a metaflac that prints the all-zero sentinel (plus a
trailing newline) classifies as `no_md5`, never `passed`. -/
theorem C3_witness :
    (verify_flac "c.flac" sentinel_env 30 2).1 =
      ⟨"c.flac", "no_md5", none, none⟩ ∧
    (verify_flac "c.flac" sentinel_env 30 2).1.status ≠ "passed" :=
  (C3_sentinel_checksum_classification "c.flac" sentinel_env 30 2 good_info
      (ProcBehavior.exits 0 "" "")
      (ProcBehavior.exits 0 "00000000000000000000000000000000\n" "")
      zero_md5 rfl (by decide) (by decide) (by decide) (by decide)).1
    (Or.inr rfl)

lemma verify_flac_aux_md5_fail (fp : String) (env : Nat → AttemptEnv) (t : ℚ)
    (mr : Nat) (info : Nat → FileInfo) (fb mb : Nat → ProcBehavior)
    (henv : ∀ a, env a = AttemptEnv.runs (info a) (fb a) (mb a))
    (hacc : ∀ a, is_file_accessible (info a) = true)
    (h1 : ∀ a, (run_command ["flac", "-t", fp] t (fb a)).1 = 0)
    (h2 : ∀ a,
      (run_command ["metaflac", "--show-md5sum", fp] (t / 3) (mb a)).1 ≠ 0) :
    ∀ (k attempt : Nat) (le : String), attempt + k = mr →
      verify_flac_aux fp env t mr attempt (k + 1) le =
        (⟨fp, "failed", some "MD5 check failed", none⟩,
         (List.range' attempt (k + 1)).flatMap (attempt_events fp t mr)) := by
  intro k
  induction k with
  | zero =>
    intro attempt le h
    have hm : attempt = mr := by omega
    have h1n : ¬ ((run_command ["flac", "-t", fp] t (fb attempt)).1 ≠ 0) := by
      simpa using h1 attempt
    rw [verify_flac_aux, henv attempt]
    simp only [hacc attempt, if_true, if_neg h1n, if_pos (h2 attempt),
      if_pos hm]
    simp [attempt_events, List.range', hm]
  | succ k ih =>
    intro attempt le h
    have hne : attempt ≠ mr := by omega
    have h1n : ¬ ((run_command ["flac", "-t", fp] t (fb attempt)).1 ≠ 0) := by
      simpa using h1 attempt
    rw [verify_flac_aux, henv attempt]
    simp only [hacc attempt, if_true, if_neg h1n, if_pos (h2 attempt),
      if_neg hne]
    rw [ih (attempt + 1) le (by omega)]
    conv_rhs => rw [List.range'_succ, List.flatMap_cons]
    simp [attempt_events, if_neg hne]

/-- Claim C2: a structural-check failure (any nonzero or timeout return of
the `flac -t` invocation) is terminal: the attempt returns a failed outcome
immediately with exactly one external call in the trace and no backoff
sleep, at whatever attempt it occurs.  A timeout is one such nonzero return.
A checksum-read failure is retried: if the metadata read fails on every
attempt, the run performs all `max_retries + 1` attempts, sleeping
`0.5 * (attempt + 1)` seconds after every attempt but the last, and ends
with the terminal checksum-check failure outcome (reason "MD5 check
failed"). -/
theorem C2_structural_terminal_checksum_retried :
    (∀ (fp : String) (env : Nat → AttemptEnv) (t : ℚ)
      (mr attempt fuel : Nat) (le : String)
      (info : FileInfo) (fb mb : ProcBehavior),
      env attempt = AttemptEnv.runs info fb mb →
      is_file_accessible info = true →
      (run_command ["flac", "-t", fp] t fb).1 ≠ 0 →
      verify_flac_aux fp env t mr attempt (fuel + 1) le =
        (⟨fp, "failed",
          some (flac_error_msg (run_command ["flac", "-t", fp] t fb).2.2),
          none⟩,
         [Event.call ["flac", "-t", fp] t]))
    ∧ (∀ (cmd : List String) (t : ℚ),
      (run_command cmd t ProcBehavior.timesOut).1 ≠ 0)
    ∧ (∀ (fp : String) (t : ℚ) (mr : Nat) (info : Nat → FileInfo)
      (fb mb : Nat → ProcBehavior),
      (∀ a, is_file_accessible (info a) = true) →
      (∀ a, (run_command ["flac", "-t", fp] t (fb a)).1 = 0) →
      (∀ a,
        (run_command ["metaflac", "--show-md5sum", fp] (t / 3) (mb a)).1 ≠ 0) →
      verify_flac fp (fun a => AttemptEnv.runs (info a) (fb a) (mb a)) t mr =
        (⟨fp, "failed", some "MD5 check failed", none⟩,
         checksum_retry_trace fp t mr)) := by
  refine ⟨?_, ?_, ?_⟩
  · intro fp env t mr attempt fuel le info fb mb henv hacc h1
    rw [verify_flac_aux, henv]
    simp only [hacc, if_true, if_pos h1]
  · intro cmd t
    simp [run_command]
  · intro fp t mr info fb mb hacc h1 h2
    rw [verify_flac]
    rw [verify_flac_aux_md5_fail fp _ t mr info fb mb (fun a => rfl) hacc h1 h2
      mr 0 "" (by omega)]
    rw [checksum_retry_trace, List.range_eq_range']

/-- Witness for C2: a structural failure at attempt 0 is terminal with one
call and no sleep, and a run whose checksum read fails on both attempts of a
`max_retries = 1` configuration produces the full retry trace and the
terminal checksum-failure outcome. -/
theorem C2_witness :
    verify_flac_aux "a.flac" struct_fail_env 30 2 0 3 "" =
      (⟨"a.flac", "failed",
        some (flac_error_msg "flac 1.4.2\na.flac: ERROR while decoding\n"),
        none⟩,
       [Event.call ["flac", "-t", "a.flac"] 30]) ∧
    verify_flac "b.flac"
      (fun a => AttemptEnv.runs good_info (ProcBehavior.exits 0 "" "")
        (ProcBehavior.exits 1 "" "metaflac: read error")) 30 1 =
      (⟨"b.flac", "failed", some "MD5 check failed", none⟩,
       checksum_retry_trace "b.flac" 30 1) :=
  ⟨C2_structural_terminal_checksum_retried.1 "a.flac" struct_fail_env 30 2 0 2
      "" good_info
      (ProcBehavior.exits 1 "" "flac 1.4.2\na.flac: ERROR while decoding\n")
      (ProcBehavior.exits 0 "0123456789abcdef0123456789abcdef" "") rfl
      (by decide) (by decide),
   C2_structural_terminal_checksum_retried.2.2 "b.flac" 30 1
      (fun _ => good_info) (fun _ => ProcBehavior.exits 0 "" "")
      (fun _ => ProcBehavior.exits 1 "" "metaflac: read error")
      (by intro a; simp [is_file_accessible, good_info])
      (by intro a; simp [run_command]) (by intro a; simp [run_command])⟩

lemma verify_flac_aux_call_budgets (fp : String) (env : Nat → AttemptEnv)
    (t : ℚ) (mr : Nat) :
    ∀ (fuel attempt : Nat) (le : String) (cmd : List String) (b : ℚ),
      Event.call cmd b ∈ (verify_flac_aux fp env t mr attempt fuel le).2 →
      (cmd = ["flac", "-t", fp] ∧ b = t) ∨
      (cmd = ["metaflac", "--show-md5sum", fp] ∧ b = t / 3) := by
  intro fuel
  induction fuel with
  | zero =>
    intro attempt le cmd b h
    rw [verify_flac_aux] at h
    simp at h
  | succ fuel ih =>
    intro attempt le cmd b h
    rw [verify_flac_aux] at h
    rcases henv : env attempt with msg | ⟨info, fb, mb⟩ <;> rw [henv] at h
    · by_cases hm : attempt = mr
      · simp [if_pos hm] at h
      · simp only [if_neg hm, List.mem_cons] at h
        rcases h with h | h
        · cases h
        · exact ih (attempt + 1) msg cmd b h
    · by_cases hacc : is_file_accessible info = true
      · simp only [hacc, if_true] at h
        by_cases h1 : (run_command ["flac", "-t", fp] t fb).1 ≠ 0
        · simp only [if_pos h1, List.mem_singleton] at h
          cases h
          exact Or.inl ⟨rfl, rfl⟩
        · simp only [if_neg h1] at h
          by_cases h2 :
              (run_command ["metaflac", "--show-md5sum", fp] (t / 3) mb).1 ≠ 0
          · simp only [if_pos h2] at h
            by_cases hm : attempt = mr
            · simp only [if_pos hm, List.mem_cons, List.mem_singleton] at h
              rcases h with h | h | h
              · cases h; exact Or.inl ⟨rfl, rfl⟩
              · cases h; exact Or.inr ⟨rfl, rfl⟩
              · cases h
            · simp only [if_neg hm, List.mem_cons] at h
              rcases h with h | h | h | h
              · cases h; exact Or.inl ⟨rfl, rfl⟩
              · cases h; exact Or.inr ⟨rfl, rfl⟩
              · cases h
              · exact ih (attempt + 1) le cmd b h
          · simp only [if_neg h2] at h
            by_cases h3 :
                py_strip (run_command ["metaflac", "--show-md5sum", fp]
                  (t / 3) mb).2.1 = "" ∨
                py_strip (run_command ["metaflac", "--show-md5sum", fp]
                  (t / 3) mb).2.1 = zero_md5
            · simp only [if_pos h3, List.mem_cons, List.mem_singleton] at h
              rcases h with h | h | h
              · cases h; exact Or.inl ⟨rfl, rfl⟩
              · cases h; exact Or.inr ⟨rfl, rfl⟩
              · cases h
            · simp only [if_neg h3, List.mem_cons, List.mem_singleton] at h
              rcases h with h | h | h
              · cases h; exact Or.inl ⟨rfl, rfl⟩
              · cases h; exact Or.inr ⟨rfl, rfl⟩
              · cases h
      · simp only [hacc, Bool.false_eq_true, if_false] at h
        simp at h

/-- Claim C4, amended: the two checks run under two distinct budgets, but
they are not independently configured: every external call `verify_flac`
makes is either the structural tester with budget equal to the single
configured timeout `t`, or the metadata reader with budget `t / 3`, derived
from that same configured value.  On a clean run the budgets used are
exactly `[t, t / 3]`. -/
theorem C4_two_budgets_from_single_timeout :
    (∀ (fp : String) (env : Nat → AttemptEnv) (t : ℚ) (mr : Nat)
      (cmd : List String) (b : ℚ),
      Event.call cmd b ∈ (verify_flac fp env t mr).2 →
      (cmd = ["flac", "-t", fp] ∧ b = t) ∨
      (cmd = ["metaflac", "--show-md5sum", fp] ∧ b = t / 3))
    ∧ (∀ (fp : String) (t : ℚ),
      call_timeouts (verify_flac fp benign_env t 0).2 = [t, t / 3]) := by
  constructor
  · intro fp env t mr cmd b h
    exact verify_flac_aux_call_budgets fp env t mr (mr + 1) 0 "" cmd b h
  · intro fp t
    rfl

/-- Counterexample for C4 as stated: with the single configured timeout 30
the structural budget is 30 and the checksum budget is forced to 10 = 30/3;
no configuration of the code yields structural budget 30 together with an
independently chosen checksum budget such as 20.  The two budgets are not
separate configuration values. -/
theorem C4_counterexample :
    call_timeouts (verify_flac "a.flac" benign_env 30 0).2 = [30, 10] ∧
    ¬ ∃ t : ℚ, call_timeouts (verify_flac "a.flac" benign_env t 0).2 =
      [30, 20] := by
  have h : ∀ t : ℚ, call_timeouts (verify_flac "a.flac" benign_env t 0).2 =
      [t, t / 3] := fun t => rfl
  constructor
  · rw [h 30]
    norm_num
  · rintro ⟨t, ht⟩
    rw [h t] at ht
    simp only [List.cons.injEq, and_true] at ht
    obtain ⟨ht1, ht2⟩ := ht
    rw [ht1] at ht2
    norm_num at ht2

/-- Witness for the amended C4: the first call of a clean run is the
structural tester with the configured budget 30. -/
theorem C4_witness :
    (["flac", "-t", "a.flac"] = ["flac", "-t", "a.flac"] ∧ (30 : ℚ) = 30) ∨
    (["flac", "-t", "a.flac"] = ["metaflac", "--show-md5sum", "a.flac"] ∧
      (30 : ℚ) = 30 / 3) :=
  C4_two_budgets_from_single_timeout.1 "a.flac" benign_env 30 0
    ["flac", "-t", "a.flac"] 30
    (by
      have h : (verify_flac "a.flac" benign_env 30 0).2 =
          [Event.call ["flac", "-t", "a.flac"] 30,
           Event.call ["metaflac", "--show-md5sum", "a.flac"] (30 / 3)] := rfl
      rw [h]
      exact List.mem_cons_self _ _)

end Reflac
